import Mathlib

/-!
Shallow embedding of the "Autos en Campana" backend (src/server.js) and the
image-selection logic of the admin client (src/unnamed/part_000), for checking
the natural-language specification against the code.

Modelling conventions:
* JavaScript numbers appearing in the vehicle payload are modelled as integers
  (`Int`); a value that is `NaN` (e.g. the result of `parseInt` on an
  unparseable string, or a `parseInt(undefined)` for an absent field) is
  modelled by `JSNum.nan`.  All values exercised by the specification's claims
  are integral.
* The uploads directory is modelled as the list of public reference paths
  (`"/uploads/<filename>"`) of the files it contains; file contents are not
  modelled, only which files exist.
* `Date.now()` is modelled by an explicit `now : Nat` parameter, fixed for the
  duration of one request.
* HTTP responses are modelled as a status code paired with a JSON value.
-/

namespace AutosCampana

/-- JSON values, as produced by the server's `res.json(...)` calls. -/
inductive JVal where
  | jnull : JVal
  | jbool : Bool → JVal
  | jnum : Int → JVal
  | jstr : String → JVal
  | jarr : List JVal → JVal
  | jobj : List (String × JVal) → JVal

/-- Field lookup in a JSON object (`body.key`); `none` on non-objects or
absent keys. -/
def jlookup (j : JVal) (k : String) : Option JVal :=
  match j with
  | .jobj kvs => kvs.lookup k
  | _ => none

/-- A JavaScript number that is either an actual number or `NaN`.  Requests
carry the value each numeric field parses to (`parseInt` / `parseFloat`);
`nan` covers both an absent field and an unparseable one. -/
inductive JSNum where
  | nan : JSNum
  | num : Int → JSNum
deriving Repr, DecidableEq

/-- The `x || null` coercion applied to a parsed number in server.js lines
128-130 (`parseInt(anio, 10) || null` etc.): every falsy value — `NaN` and
`0` alike — becomes `null` (modelled as `none`). -/
def jsOrNull : JSNum → Option Int
  | .nan => none
  | .num n => if n = 0 then none else some n

/-- A stored vehicle record, mirroring the object literal built at
server.js lines 124-134. -/
structure Vehicle where
  id : Nat
  marca : String
  modelo : String
  anio : Option Int
  precio : Option Int
  km : Option Int
  descripcion : String
  destacado : Bool
  imagenes : List String
deriving Repr, DecidableEq

/-- Server state: the vehicle store (`vehicles.json`, an ordered array) and
the uploads directory (as the list of public `/uploads/...` paths present). -/
structure ServerState where
  vehicles : List Vehicle
  uploads : List String
deriving Repr, DecidableEq

/-- The empty initial state: no vehicles, no uploaded files. -/
def initState : ServerState := ⟨[], []⟩

/-- server.js lines 77-79: `getNextId(vehicles)` — the fold
`vehicles.reduce((max, v) => Math.max(max, v.id || 0), 0) + 1`.
(`v.id || 0` is the identity on natural-number ids.) -/
def getNextId (vehicles : List Vehicle) : Nat :=
  vehicles.foldl (fun mx v => Nat.max mx v.id) 0 + 1

/-- String prefix test (JavaScript `s.startsWith(pre)`), computed on the
character lists so that it reduces inside the kernel. -/
def jsStartsWith (s pre : String) : Bool :=
  pre.data.isPrefixOf s.data

/-- True iff `c` is matched by the JavaScript regex class `\w`. -/
def isWordChar (c : Char) : Bool :=
  c.isAlphanum || c = '_'

/-- The regex match at server.js line 86:
`dataUrl.match(/^data:(image\/\w+);base64,(.+)$/)`.
Returns `(subtype, data)` on success, where `subtype` is the `\w+` part of the
MIME type (`matches[1]` is `"image/" ++ subtype`, and the extension computed
at line 91 is exactly `subtype`) and `data` is the base64 payload
(`matches[2]`).  `(.+)$` requires a nonempty remainder containing no line
terminator.  Computed on character lists. -/
def matchDataUrl (s : String) : Option (String × String) :=
  let cs := s.data
  if "data:image/".data.isPrefixOf cs then
    let rest := cs.drop 11
    let w := rest.takeWhile isWordChar
    let rest2 := rest.drop w.length
    if w.length > 0 && ";base64,".data.isPrefixOf rest2 then
      let d := rest2.drop 8
      if d.length > 0 && !(d.contains '\n') && !(d.contains '\r') then
        some (⟨w⟩, ⟨d⟩)
      else none
    else none
  else none

/-- Decimal digits of a positive number, with explicit fuel so that the
recursion is structural (and hence reduces inside the kernel). -/
def natDigitsAux : Nat → Nat → List Char
  | 0, _ => []
  | _ + 1, 0 => []
  | fuel + 1, n + 1 =>
      natDigitsAux fuel ((n + 1) / 10) ++ [Char.ofNat (48 + (n + 1) % 10)]

/-- Decimal rendering of a natural number (the template-literal
stringification `${...}` of a JavaScript integer). -/
def natToStr (n : Nat) : String :=
  if n = 0 then "0" else ⟨natDigitsAux n n⟩

/-- server.js lines 84-99: `saveDataUrlToFile(dataUrl, index)`.  On a
well-formed data URL it writes the decoded bytes to
`uploads/<Date.now()>-<index>.<ext>` and returns the public path
`/uploads/<filename>`; on a malformed tag it throws (`none`). -/
def saveDataUrlToFile (now : Nat) (dataUrl : String) (index : Nat) :
    Option String :=
  match matchDataUrl dataUrl with
  | none => none
  | some (ext, _data) =>
      some ("/uploads/" ++ natToStr now ++ "-" ++ natToStr index ++ "." ++ ext)

/-- One element of the request's `imagenes` array: either a plain string or
an object of the richer `{ src, cropOffsetX, cropOffsetY }` client shape
(`src` may be absent). -/
inductive ImgInput where
  | str : String → ImgInput
  | obj : Option String → ImgInput
deriving Repr, DecidableEq

/-- The value `img.src || img` passed to `saveDataUrlToFile` at server.js
line 121.  A plain string has no `src` property, so it is passed itself;
for an object, a truthy `src` is passed, while a falsy `src` (absent or
empty) makes the object itself the argument — `dataUrl.match` then throws a
`TypeError`, modelled as `none` (no string argument). -/
def srcOrSelf : ImgInput → Option String
  | .str s => some s
  | .obj (some s) => if s = "" then none else some s
  | .obj none => none

/-- server.js lines 118-122: the body of `imagenes.map((img, idx) => ...)`
for one element.  A plain string that is not a data URL is kept verbatim and
writes nothing (`some (img, none)`); otherwise `img.src || img` is handed to
`saveDataUrlToFile`, which either writes a file and yields its public path
(`some (ref, some ref)`) or throws (`none`). -/
def resolveOne (now idx : Nat) (img : ImgInput) :
    Option (String × Option String) :=
  match img with
  | .str s =>
    if !(jsStartsWith s "data:") then some (s, none)
    else
      match saveDataUrlToFile now s idx with
      | none => none
      | some ref => some (ref, some ref)
  | .obj osrc =>
    match srcOrSelf (.obj osrc) with
    | none => none
    | some s =>
      match saveDataUrlToFile now s idx with
      | none => none
      | some ref => some (ref, some ref)

/-- server.js lines 117-123: `imagenes.map((img, idx) => ...)`, executed
left to right.  A failing element aborts the whole map with the files
written by earlier elements already on disk.
Result: `.ok (storedRefs, filesWritten)` or `.error filesWrittenBeforeFailure`. -/
def resolveImages (now : Nat) : List ImgInput → Nat →
    Except (List String) (List String × List String)
  | [], _ => .ok ([], [])
  | img :: rest, idx =>
    match resolveOne now idx img with
    | none => .error []
    | some (ref, wrote) =>
      match resolveImages now rest (idx + 1) with
      | .error ws => .error (wrote.toList ++ ws)
      | .ok (refs, ws) => .ok (ref :: refs, wrote.toList ++ ws)

/-- JavaScript truthiness of an optional string field (`!marca` etc.):
falsy iff absent or empty. -/
def truthyStr : Option String → Bool
  | none => false
  | some s => s ≠ ""

/-- The request body of `POST /api/vehiculos` as destructured at
server.js line 109.  Fields may be absent (`none` / `JSNum.nan`);
`destacado` is modelled post-`!!` as a `Bool`; `imagenes` is `none` when the
field is not an array (line 117's `Array.isArray` check then yields `[]`). -/
structure CreateReq where
  marca : Option String
  modelo : Option String
  anio : JSNum
  precio : JSNum
  km : JSNum
  descripcion : Option String
  destacado : Bool
  imagenes : Option (List ImgInput)
deriving Repr, DecidableEq

/-- The record literal `nuevo` built at server.js lines 124-134. -/
def nuevoVehicle (id : Nat) (req : CreateReq) (imagePaths : List String) :
    Vehicle where
  id := id
  marca := req.marca.getD ""
  modelo := req.modelo.getD ""
  anio := jsOrNull req.anio
  precio := jsOrNull req.precio
  km := jsOrNull req.km
  descripcion := req.descripcion.getD ""   -- `descripcion || ''`
  destacado := req.destacado               -- `!!destacado`
  imagenes := imagePaths

/-- server.js lines 108-142: the `POST /api/vehiculos` handler.  Returns the
new server state together with the HTTP status and JSON body. -/
def createVehicle (now : Nat) (st : ServerState) (req : CreateReq) :
    ServerState × Nat × JVal :=
  if !truthyStr req.marca || !truthyStr req.modelo then
    (st, 400, .jobj [("error", .jstr "Faltan campos obligatorios")])
  else
    let id := getNextId st.vehicles
    -- `Array.isArray(imagenes) ? imagenes.map(...) : []`
    match resolveImages now (req.imagenes.getD []) 0 with
    | .error written =>
        -- the map threw: caught at line 138, files already written remain
        ({ st with uploads := st.uploads ++ written }, 500,
         .jobj [("error", .jstr "Error interno al guardar el vehículo")])
    | .ok (imagePaths, written) =>
        ({ vehicles := st.vehicles ++ [nuevoVehicle id req imagePaths],
           uploads := st.uploads ++ written },
         201, .jobj [("success", .jbool true), ("id", .jnum id)])

/-- server.js lines 157-166: unlink every image of the removed vehicle whose
path is truthy and starts with `/uploads/`; `fs.existsSync` guards the
unlink, so a missing file is skipped. -/
def deleteImages (uploads : List String) (imagenes : List String) :
    List String :=
  imagenes.foldl
    (fun ups imgPath =>
      if imgPath ≠ "" && jsStartsWith imgPath "/uploads/" then
        if ups.contains imgPath then ups.filter (fun f => f ≠ imgPath)
        else ups
      else ups)
    uploads

/-- server.js lines 145-175: the `DELETE /api/vehiculos/:id` handler.  The
route parameter is modelled by the result of `parseInt(req.params.id, 10)`;
`!id` rejects `NaN` and `0` with 400. -/
def deleteVehicle (st : ServerState) (idParam : JSNum) :
    ServerState × Nat × JVal :=
  match idParam with
  | .nan => (st, 400, .jobj [("error", .jstr "ID inválido")])
  | .num i =>
    if i = 0 then (st, 400, .jobj [("error", .jstr "ID inválido")])
    else
      match st.vehicles.find? (fun v => (v.id : Int) == i) with
      | none => (st, 404, .jobj [("error", .jstr "Vehículo no encontrado")])
      | some v =>
          ({ vehicles := st.vehicles.filter (fun w => (w.id : Int) != i),
             uploads := deleteImages st.uploads v.imagenes },
           200, .jobj [("success", .jbool true)])

/-- server.js lines 102-105: `GET /api/vehiculos` returns `readVehicles()`
as-is (the stored array, in stored order). -/
def listVehicles (st : ServerState) : List Vehicle := st.vehicles

/-- An API operation against the store. -/
inductive Op where
  | create (now : Nat) (req : CreateReq)
  | del (idParam : JSNum)
deriving Repr, DecidableEq

/-- State transition of one operation (ignoring the HTTP response). -/
def applyOp (st : ServerState) : Op → ServerState
  | .create now req => (createVehicle now st req).1
  | .del i => (deleteVehicle st i).1

/-- Run a sequence of operations from the empty initial state. -/
def runOps (ops : List Op) : ServerState := ops.foldl applyOp initState

/-- A server state reachable from the empty store by create and delete
operations. -/
def Reachable (st : ServerState) : Prop := ∃ ops : List Op, runOps ops = st

/-- The id carried by a create response body (`{ success: true, id }`). -/
def respId (body : JVal) : Option Int :=
  match jlookup body "id" with
  | some (.jnum n) => some n
  | _ => none

/-- The ids assigned by the successful creates of an operation sequence, in
order, read off the response bodies. -/
def assignedIds (st : ServerState) : List Op → List Int
  | [] => []
  | .create now req :: rest =>
      let res := createVehicle now st req
      match respId res.2.2 with
      | some n => n :: assignedIds res.1 rest
      | none => assignedIds res.1 rest
  | .del i :: rest => assignedIds (deleteVehicle st i).1 rest

/-- A create-request element passes image ingestion: a plain string that is
not a data URL, or a string-valued source that matches the data-URL pattern. -/
def imgOk : ImgInput → Bool
  | .str s => !(jsStartsWith s "data:") || (matchDataUrl s).isSome
  | .obj osrc =>
    match osrc with
    | some s => s ≠ "" && (matchDataUrl s).isSome
    | none => false

/-- Valid create input: required fields present and every image ingestible. -/
def validReq (req : CreateReq) : Prop :=
  truthyStr req.marca = true ∧ truthyStr req.modelo = true ∧
    ∀ i ∈ req.imagenes.getD [], imgOk i = true

instance : DecidablePred validReq := fun req => by
  unfold validReq; infer_instance

/-- src/unnamed/part_000 lines 227-238: `handleSelectedFiles(files)` on the
admin client.  A file is `(type, dataUrl)` where `dataUrl` stands for the
result of `compressFileToDataUrl` (browser canvas work, not modelled).  The
loop breaks once 5 images are selected and skips non-image files. -/
def handleSelectedFiles (selectedImages : List String) :
    List (String × String) → List String
  | [] => selectedImages
  | (ftype, dataUrl) :: rest =>
    if selectedImages.length ≥ 5 then selectedImages
    else if !(jsStartsWith ftype "image/") then
      handleSelectedFiles selectedImages rest
    else handleSelectedFiles (selectedImages ++ [dataUrl]) rest

/-! Helper lemmas about the embedded definitions. -/

theorem le_foldl_max_init : ∀ (l : List Nat) (a : Nat), a ≤ l.foldl Nat.max a
  | [], _ => Nat.le_refl _
  | b :: l, a =>
      Nat.le_trans (Nat.le_max_left a b) (le_foldl_max_init l (Nat.max a b))

theorem le_foldl_max_of_mem :
    ∀ (l : List Nat) (a x : Nat), x ∈ l → x ≤ l.foldl Nat.max a
  | b :: l, a, x, hx => by
      rcases List.mem_cons.mp hx with h | h
      · subst h
        exact Nat.le_trans (Nat.le_max_right a x) (le_foldl_max_init l _)
      · exact le_foldl_max_of_mem l _ x h

theorem foldl_max_mem :
    ∀ (l : List Nat) (a : Nat), l.foldl Nat.max a = a ∨ l.foldl Nat.max a ∈ l
  | [], _ => Or.inl rfl
  | b :: l, a => by
      rcases foldl_max_mem l (Nat.max a b) with h | h
      · rw [List.foldl_cons, h]
        rcases Nat.le_total a b with hab | hab
        · exact Or.inr (by simp [Nat.max_eq_right hab])
        · exact Or.inl (Nat.max_eq_left hab)
      · exact Or.inr (List.mem_cons_of_mem _ h)

/-- `getNextId` in terms of the fold over the list of ids. -/
theorem getNextId_eq_fold_ids (vs : List Vehicle) :
    getNextId vs = (vs.map Vehicle.id).foldl Nat.max 0 + 1 := by
  unfold getNextId
  rw [List.foldl_map]

/-- Every id in the store is strictly below the next allocated id. -/
theorem id_lt_getNextId {vs : List Vehicle} {v : Vehicle} (h : v ∈ vs) :
    v.id < getNextId vs := by
  rw [getNextId_eq_fold_ids]
  exact Nat.lt_succ_of_le
    (le_foldl_max_of_mem _ 0 v.id (List.mem_map_of_mem Vehicle.id h))

/-- On a nonempty store, `getNextId` is one greater than the maximum id. -/
theorem getNextId_eq_max_succ {vs : List Vehicle} (h : vs ≠ []) :
    ∃ m, m ∈ vs.map Vehicle.id ∧ (∀ v ∈ vs, v.id ≤ m) ∧
      getNextId vs = m + 1 := by
  refine ⟨(vs.map Vehicle.id).foldl Nat.max 0, ?_,
    fun v hv => le_foldl_max_of_mem _ 0 v.id (List.mem_map_of_mem Vehicle.id hv),
    getNextId_eq_fold_ids vs⟩
  rcases foldl_max_mem (vs.map Vehicle.id) 0 with h0 | hmem
  · match vs, h with
    | v :: vs, _ =>
        have hle : v.id ≤ (List.map Vehicle.id (v :: vs)).foldl Nat.max 0 :=
          le_foldl_max_of_mem _ 0 v.id (List.mem_map_of_mem Vehicle.id (by simp))
        rw [h0] at hle
        rw [h0, ← Nat.eq_zero_of_le_zero hle]
        exact List.mem_map_of_mem Vehicle.id (by simp)
  · exact hmem

/-- Characterization of a successful create. -/
theorem createVehicle_ok {now : Nat} {st : ServerState} {req : CreateReq}
    {refs ws : List String}
    (hm : truthyStr req.marca = true) (ho : truthyStr req.modelo = true)
    (hres : resolveImages now (req.imagenes.getD []) 0 = .ok (refs, ws)) :
    createVehicle now st req =
      ({ vehicles :=
           st.vehicles ++ [nuevoVehicle (getNextId st.vehicles) req refs],
         uploads := st.uploads ++ ws },
       201,
       .jobj [("success", .jbool true),
              ("id", .jnum (getNextId st.vehicles))]) := by
  unfold createVehicle
  rw [hm, ho]
  simp [hres]

/-- Characterization of a create aborted by a failing image. -/
theorem createVehicle_err500 {now : Nat} {st : ServerState} {req : CreateReq}
    {ws : List String}
    (hm : truthyStr req.marca = true) (ho : truthyStr req.modelo = true)
    (hres : resolveImages now (req.imagenes.getD []) 0 = .error ws) :
    createVehicle now st req =
      ({ st with uploads := st.uploads ++ ws },
       500,
       .jobj [("error", .jstr "Error interno al guardar el vehículo")]) := by
  unfold createVehicle
  rw [hm, ho]
  simp [hres]

/-- Characterization of a create rejected by field validation. -/
theorem createVehicle_err400 {now : Nat} {st : ServerState} {req : CreateReq}
    (h : truthyStr req.marca = false ∨ truthyStr req.modelo = false) :
    createVehicle now st req =
      (st, 400, .jobj [("error", .jstr "Faltan campos obligatorios")]) := by
  unfold createVehicle
  rcases h with h | h <;> simp [h]

/-- A plain string element that is not a data URL resolves to itself and
writes no file. -/
theorem resolveOne_external {now idx : Nat} {s : String}
    (hsw : jsStartsWith s "data:" = false) :
    resolveOne now idx (.str s) = some (s, none) := by
  simp [resolveOne, hsw]

/-- Every ingestible element resolves. -/
theorem resolveOne_isSome_of_imgOk {now idx : Nat} {img : ImgInput}
    (h : imgOk img = true) :
    ∃ ref wrote, resolveOne now idx img = some (ref, wrote) := by
  rcases img with s | osrc
  · simp only [imgOk] at h
    by_cases hsw : jsStartsWith s "data:"
    · rw [hsw] at h
      simp only [Bool.not_true, Bool.false_or] at h
      obtain ⟨⟨ext, dat⟩, hmt⟩ := Option.isSome_iff_exists.mp h
      refine ⟨"/uploads/" ++ natToStr now ++ "-" ++ natToStr idx ++ "." ++ ext,
        some ("/uploads/" ++ natToStr now ++ "-" ++ natToStr idx ++ "." ++ ext),
        ?_⟩
      simp [resolveOne, hsw, saveDataUrlToFile, hmt]
    · rw [Bool.not_eq_true] at hsw
      exact ⟨s, none, resolveOne_external hsw⟩
  · rcases osrc with _ | s
    · simp [imgOk] at h
    · simp only [imgOk, Bool.and_eq_true, decide_eq_true_eq] at h
      obtain ⟨hne, hsome⟩ := h
      obtain ⟨⟨ext, dat⟩, hmt⟩ := Option.isSome_iff_exists.mp hsome
      refine ⟨"/uploads/" ++ natToStr now ++ "-" ++ natToStr idx ++ "." ++ ext,
        some ("/uploads/" ++ natToStr now ++ "-" ++ natToStr idx ++ "." ++ ext),
        ?_⟩
      simp [resolveOne, srcOrSelf, if_neg hne, saveDataUrlToFile, hmt]

/-- A successful image resolution stores exactly one reference per payload
element. -/
theorem resolveImages_ok_length {now : Nat} :
    ∀ {imgs : List ImgInput} {idx : Nat} {refs ws : List String},
      resolveImages now imgs idx = .ok (refs, ws) → refs.length = imgs.length
  | [], idx, refs, ws, h => by
      simp only [resolveImages] at h
      cases h
      rfl
  | img :: rest, idx, refs, ws, h => by
      rcases hone : resolveOne now idx img with _ | ⟨ref, wrote⟩ <;>
        rcases hrec : resolveImages now rest (idx + 1) with ws2 | ⟨refs2, ws2⟩ <;>
          simp [resolveImages, hone, hrec] at h
      obtain ⟨h1, h2⟩ := h
      subst h1
      subst h2
      simp [resolveImages_ok_length hrec]

/-- In a successful resolution, a plain string element that is not a data
URL is stored verbatim at its own position. -/
theorem resolveImages_ok_verbatim {now : Nat} :
    ∀ {imgs : List ImgInput} {idx : Nat} {refs ws : List String},
      resolveImages now imgs idx = .ok (refs, ws) →
      ∀ (k : Nat) (s : String), imgs[k]? = some (.str s) →
        jsStartsWith s "data:" = false → refs[k]? = some s
  | [], idx, refs, ws, h, k, s, hk, hsw => by simp at hk
  | img :: rest, idx, refs, ws, h, k, s, hk, hsw => by
      rcases hone : resolveOne now idx img with _ | ⟨ref, wrote⟩ <;>
        rcases hrec : resolveImages now rest (idx + 1) with ws2 | ⟨refs2, ws2⟩ <;>
          simp [resolveImages, hone, hrec] at h
      obtain ⟨h1, h2⟩ := h
      subst h1
      subst h2
      cases k with
      | zero =>
          simp only [List.getElem?_cons_zero, Option.some.injEq] at hk ⊢
          subst hk
          rw [resolveOne_external hsw] at hone
          cases hone
          rfl
      | succ k =>
          simp only [List.getElem?_cons_succ] at hk ⊢
          exact resolveImages_ok_verbatim hrec k s hk hsw

/-- Image resolution succeeds on a payload all of whose elements are
ingestible. -/
theorem resolveImages_ok_of_all_imgOk {now : Nat} :
    ∀ {imgs : List ImgInput} (idx : Nat), (∀ i ∈ imgs, imgOk i = true) →
      ∃ refs ws, resolveImages now imgs idx = .ok (refs, ws)
  | [], idx, _ => ⟨[], [], rfl⟩
  | img :: rest, idx, hall => by
      obtain ⟨refs, ws, hrec⟩ :=
        @resolveImages_ok_of_all_imgOk now rest (idx + 1)
          (fun i hi => hall i (List.mem_cons_of_mem _ hi))
      obtain ⟨ref, wrote, hone⟩ :=
        @resolveOne_isSome_of_imgOk now idx img
          (hall img (List.mem_cons_self _ _))
      exact ⟨ref :: refs, wrote.toList ++ ws, by
        simp only [resolveImages, hone, hrec]⟩

/-- The truthiness guard in the unlink loop is subsumed by the prefix test:
the empty string does not start with `/uploads/`. -/
theorem uploads_prefix_of_empty : jsStartsWith "" "/uploads/" = false := by
  decide

/-- Unlinking the removed vehicle's images deletes from the uploads store
exactly the files it references under `/uploads/`, leaving every other file
untouched (a referenced file that is absent is simply skipped). -/
theorem deleteImages_eq_filter : ∀ (L U : List String),
    deleteImages U L
      = U.filter (fun f => !(L.contains f && jsStartsWith f "/uploads/"))
  | [], U => by
      simp [deleteImages]
  | p :: L, U => by
      have hcons : deleteImages U (p :: L) =
          deleteImages
            (if (decide (p ≠ "") && jsStartsWith p "/uploads/") = true then
               if U.contains p then U.filter (fun f => decide (f ≠ p)) else U
             else U) L := rfl
      rw [hcons, deleteImages_eq_filter L]
      by_cases hsw : jsStartsWith p "/uploads/" = true
      · have hne : p ≠ "" := by
          intro hp
          rw [hp, uploads_prefix_of_empty] at hsw
          cases hsw
        rw [if_pos (by simp [hne, hsw])]
        by_cases hmem : p ∈ U
        · rw [if_pos (show U.contains p = true from List.elem_iff.mpr hmem)]
          rw [List.filter_filter]
          refine List.filter_congr (fun f _ => ?_)
          by_cases hf : f = p
          · subst hf
            simp [hsw]
          · simp [hf, List.contains_cons, bne, Ne.symm hf]
        · rw [if_neg (fun hc => hmem (List.elem_iff.mp hc))]
          refine List.filter_congr (fun f hfU => ?_)
          have hf : f ≠ p := fun he => hmem (he ▸ hfU)
          simp [List.contains_cons, hf]
      · rw [Bool.not_eq_true] at hsw
        rw [if_neg (by simp [hsw])]
        refine List.filter_congr (fun f _ => ?_)
        by_cases hf : f = p
        · subst hf
          simp [hsw]
        · simp [List.contains_cons, hf]

/-- On a store whose ids are duplicate-free, `find?` locates exactly the
present vehicle with the requested id. -/
theorem find?_by_id : ∀ {vs : List Vehicle} {v : Vehicle},
    (vs.map Vehicle.id).Nodup → v ∈ vs →
    vs.find? (fun w => (w.id : Int) == (v.id : Int)) = some v
  | x :: vs, v, hnd, hv => by
      cases hx : ((x.id : Int) == (v.id : Int)) with
      | true =>
        simp only [List.find?_cons, hx]
        have hid : x.id = v.id := by
          have := beq_iff_eq.mp hx
          exact_mod_cast this
        rcases List.mem_cons.mp hv with h | h
        · rw [h]
        · exfalso
          have hx_not : x.id ∉ vs.map Vehicle.id :=
            (List.nodup_cons.mp (by simpa using hnd)).1
          exact hx_not (hid ▸ List.mem_map_of_mem Vehicle.id h)
      | false =>
        simp only [List.find?_cons, hx]
        have hvx : v ≠ x := by
          intro he
          rw [he, beq_self_eq_true] at hx
          cases hx
        have hvtail : v ∈ vs := by
          rcases List.mem_cons.mp hv with h | h
          · exact absurd h hvx
          · exact h
        exact find?_by_id (List.nodup_cons.mp (by simpa using hnd)).2 hvtail

/-- The possible effects of a create on the vehicle store: unchanged, or a
single record appended with the freshly allocated id. -/
theorem createVehicle_state_cases (now : Nat) (st : ServerState)
    (req : CreateReq) :
    (createVehicle now st req).1.vehicles = st.vehicles ∨
    ∃ refs, (createVehicle now st req).1.vehicles
        = st.vehicles ++ [nuevoVehicle (getNextId st.vehicles) req refs] := by
  by_cases hm : truthyStr req.marca = true
  · by_cases ho : truthyStr req.modelo = true
    · cases hres : resolveImages now (req.imagenes.getD []) 0 with
      | error ws => rw [createVehicle_err500 hm ho hres]; exact Or.inl rfl
      | ok p =>
        obtain ⟨refs, ws⟩ := p
        rw [createVehicle_ok hm ho hres]
        exact Or.inr ⟨refs, rfl⟩
    · rw [createVehicle_err400 (Or.inr (Bool.not_eq_true _ ▸ ho))]
      exact Or.inl rfl
  · rw [createVehicle_err400 (Or.inl (Bool.not_eq_true _ ▸ hm))]
    exact Or.inl rfl

/-- Definitional unfolding of the delete handler on a numeric id. -/
theorem deleteVehicle_num_def (st : ServerState) (i : Int) :
    deleteVehicle st (.num i) =
      if i = 0 then (st, 400, .jobj [("error", .jstr "ID inválido")])
      else
        match st.vehicles.find? (fun v => (v.id : Int) == i) with
        | none => (st, 404, .jobj [("error", .jstr "Vehículo no encontrado")])
        | some v =>
            ({ vehicles := st.vehicles.filter (fun w => (w.id : Int) != i),
               uploads := deleteImages st.uploads v.imagenes },
             200, .jobj [("success", .jbool true)]) := rfl

/-- The possible effects of a delete on the vehicle store: unchanged, or
filtered by id. -/
theorem deleteVehicle_state_cases (st : ServerState) (idParam : JSNum) :
    (deleteVehicle st idParam).1.vehicles = st.vehicles ∨
    ∃ i : Int, (deleteVehicle st idParam).1.vehicles
        = st.vehicles.filter (fun w => (w.id : Int) != i) := by
  rcases idParam with _ | i
  · exact Or.inl rfl
  · rw [deleteVehicle_num_def]
    by_cases hi : i = 0
    · rw [if_pos hi]
      exact Or.inl rfl
    · rw [if_neg hi]
      cases hfind : st.vehicles.find? (fun v => (v.id : Int) == i) with
      | none => exact Or.inl rfl
      | some v => exact Or.inr ⟨i, rfl⟩

/-- The store ordering invariant: records appear in strictly increasing id
order. -/
def SortedById (vs : List Vehicle) : Prop :=
  List.Pairwise (fun a b => a.id < b.id) vs

theorem sortedById_append_new {vs : List Vehicle} (h : SortedById vs)
    {v : Vehicle} (hv : ∀ w ∈ vs, w.id < v.id) : SortedById (vs ++ [v]) := by
  rw [SortedById, List.pairwise_append]
  exact ⟨h, List.pairwise_singleton _ _,
    fun a ha b hb => (List.mem_singleton.mp hb) ▸ hv a ha⟩

theorem sortedById_filter {vs : List Vehicle} (h : SortedById vs)
    (p : Vehicle → Bool) : SortedById (vs.filter p) :=
  List.Pairwise.sublist (List.filter_sublist vs) h

/-- Every operation preserves the ordering invariant. -/
theorem applyOp_sorted {st : ServerState} (h : SortedById st.vehicles)
    (op : Op) : SortedById (applyOp st op).vehicles := by
  cases op with
  | create now req =>
    rcases createVehicle_state_cases now st req with hc | ⟨refs, hc⟩
    · rw [applyOp, hc]; exact h
    · rw [applyOp, hc]
      exact sortedById_append_new h
        (fun w hw => id_lt_getNextId hw)
  | del i =>
    rcases deleteVehicle_state_cases st i with hc | ⟨j, hc⟩
    · rw [applyOp, hc]; exact h
    · rw [applyOp, hc]
      exact sortedById_filter h _

theorem foldl_applyOp_sorted :
    ∀ (ops : List Op) (st : ServerState), SortedById st.vehicles →
      SortedById (ops.foldl applyOp st).vehicles
  | [], _, h => h
  | op :: ops, st, h =>
      foldl_applyOp_sorted ops (applyOp st op) (applyOp_sorted h op)

/-- Every reachable store is sorted by id. -/
theorem reachable_sorted {st : ServerState} (h : Reachable st) :
    SortedById st.vehicles := by
  obtain ⟨ops, hops⟩ := h
  rw [← hops]
  exact foldl_applyOp_sorted ops initState (List.Pairwise.nil)

/-! Machinery for sequences of creates (claim C1). -/

/-- Run a sequence of create calls (each with its own clock value) from a
given state, keeping only the final state. -/
def runCreates (st : ServerState) : List (Nat × CreateReq) → ServerState
  | [] => st
  | (now, req) :: rest => runCreates (createVehicle now st req).1 rest

theorem foldl_max_range' :
    ∀ k : Nat, (List.range' 1 k).foldl Nat.max 0 = k
  | 0 => rfl
  | k + 1 => by
      rw [List.range'_1_concat, List.foldl_append, foldl_max_range' k]
      simp [Nat.max_eq_right (Nat.le_succ k), Nat.add_comm 1 k]

/-- `getNextId` on a store whose ids are `1..k` yields `k+1`. -/
theorem getNextId_of_range {vs : List Vehicle} {k : Nat}
    (h : vs.map Vehicle.id = List.range' 1 k) : getNextId vs = k + 1 := by
  rw [getNextId_eq_fold_ids, h, foldl_max_range']

theorem runCreates_ids :
    ∀ (reqs : List (Nat × CreateReq)) (st : ServerState) (k : Nat),
      st.vehicles.map Vehicle.id = List.range' 1 k →
      (∀ r ∈ reqs, validReq r.2) →
      (runCreates st reqs).vehicles.map Vehicle.id
        = List.range' 1 (k + reqs.length)
  | [], st, k, hst, _ => by simpa using hst
  | (now, req) :: rest, st, k, hst, hall => by
      obtain ⟨hm, ho, himgs⟩ := hall (now, req) (List.mem_cons_self _ _)
      obtain ⟨refs, ws, hres⟩ :=
        @resolveImages_ok_of_all_imgOk now (req.imagenes.getD []) 0 himgs
      have hstep : (createVehicle now st req).1.vehicles
          = st.vehicles ++ [nuevoVehicle (getNextId st.vehicles) req refs] := by
        rw [createVehicle_ok hm ho hres]
      have hids : (createVehicle now st req).1.vehicles.map Vehicle.id
          = List.range' 1 (k + 1) := by
        rw [hstep, List.map_append, hst, getNextId_of_range hst]
        simp [nuevoVehicle, List.range'_1_concat, Nat.add_comm 1 k]
      have := runCreates_ids rest (createVehicle now st req).1 (k + 1) hids
        (fun r hr => hall r (List.mem_cons_of_mem _ hr))
      rw [runCreates] at *
      rw [this]
      congr 1
      simp [Nat.add_comm, Nat.add_assoc, Nat.add_left_comm]

/-- The client cap: `handleSelectedFiles` never grows the selection beyond
5 images. -/
theorem handleSelectedFiles_le :
    ∀ (files : List (String × String)) (sel : List String),
      sel.length ≤ 5 → (handleSelectedFiles sel files).length ≤ 5
  | [], sel, h => h
  | (ftype, dataUrl) :: rest, sel, h => by
      by_cases h5 : sel.length ≥ 5
      · simp only [handleSelectedFiles, if_pos h5]
        exact h
      · cases himg : jsStartsWith ftype "image/" with
        | false =>
            simp only [handleSelectedFiles, if_neg h5, himg, Bool.not_false,
              if_true]
            exact handleSelectedFiles_le rest sel h
        | true =>
            simp only [handleSelectedFiles, if_neg h5, himg, Bool.not_true,
              Bool.false_eq_true, if_false]
            refine handleSelectedFiles_le rest (sel ++ [dataUrl]) ?_
            simp only [List.length_append, List.length_singleton]
            omega

/-! Concrete fixtures used by witnesses and counterexamples. -/

/-- The specification's scenario request (field names as in server.js). -/
def reqFord : CreateReq :=
  { marca := some "Ford", modelo := some "EcoSport", anio := .num 2019,
    precio := .num 4200000, km := .num 60000, descripcion := some "test",
    destacado := true, imagenes := some [] }

/-- A request whose second image is a malformed data URL (the first is
well-formed and gets written before the failure). -/
def reqBadImages : CreateReq :=
  { reqFord with
    imagenes := some [.str "data:image/png;base64,AAAA", .str "data:bad"] }

/-- A request whose single image is the object shape wrapping an external
URL in its `src` field. -/
def reqObjUrl : CreateReq :=
  { reqFord with imagenes := some [.obj (some "https://example.com/a.jpg")] }

/-- A request carrying six external-URL images (more than the documented
cap of five). -/
def reqSixImages : CreateReq :=
  { reqFord with
    imagenes := some [.str "u1", .str "u2", .str "u3", .str "u4", .str "u5",
      .str "u6"] }

/-- A request with the `marca` field absent. -/
def reqNoMarca : CreateReq := { reqFord with marca := none }

/-- A zero-kilometre request (`km` parses to the number 0). -/
def reqZeroKm : CreateReq := { reqFord with km := .num 0 }

/-- A stored vehicle owning two persisted payload files (one of which will
be missing from the uploads store) and one external image. -/
def vehA : Vehicle :=
  ⟨1, "Ford", "Ka", some 2010, some 100, some 5, "d", false,
    ["/uploads/10-0.png", "https://x.com/i.jpg", "/uploads/10-1.png"]⟩

/-- A second stored vehicle owning one persisted payload file. -/
def vehB : Vehicle :=
  ⟨2, "Fiat", "Uno", none, none, none, "", true, ["/uploads/20-0.jpg"]⟩

/-- A store with two vehicles; `vehA`'s file `/uploads/10-1.png` is absent
from the uploads directory. -/
def stAB : ServerState :=
  ⟨[vehA, vehB], ["/uploads/10-0.png", "/uploads/20-0.jpg"]⟩

/-- Six selected files for the client cap. -/
def sixFiles : List (String × String) :=
  [("image/jpeg", "d1"), ("image/jpeg", "d2"), ("image/png", "d3"),
   ("image/png", "d4"), ("image/gif", "d5"), ("image/gif", "d6")]

/-! Claim theorems. -/

/-- C1: every sequence of N valid creates against an initially empty store,
with no deletes, stores exactly the ids 1..N in order with no duplicates;
and the id allocator returns one greater than the maximum id currently in
the store, or 1 when the store is empty. -/
theorem c1_sequential_create_ids :
    (∀ reqs : List (Nat × CreateReq), (∀ r ∈ reqs, validReq r.2) →
      (runCreates initState reqs).vehicles.map Vehicle.id
          = List.range' 1 reqs.length ∧
        ((runCreates initState reqs).vehicles.map Vehicle.id).Nodup) ∧
    getNextId [] = 1 ∧
    (∀ vs : List Vehicle, vs ≠ [] →
      ∃ m, m ∈ vs.map Vehicle.id ∧ (∀ v ∈ vs, v.id ≤ m) ∧
        getNextId vs = m + 1) := by
  refine ⟨fun reqs hall => ?_, rfl, fun vs hvs => getNextId_eq_max_succ hvs⟩
  have h := runCreates_ids reqs initState 0 (by simp [initState]) hall
  rw [Nat.zero_add] at h
  exact ⟨h, h ▸ List.nodup_range' 1 reqs.length⟩

/-- C1 witness: two concrete valid creates yield the ids `[1, 2]`. -/
theorem c1_sequential_create_ids_witness :
    (∀ r ∈ ([(0, reqFord), (5, reqFord)] : List (Nat × CreateReq)),
      validReq r.2) ∧
    (runCreates initState [(0, reqFord), (5, reqFord)]).vehicles.map
        Vehicle.id = List.range' 1 2 :=
  ⟨by decide, (c1_sequential_create_ids.1 _ (by decide)).1⟩

/-- C2 counterexample: a create whose second image is malformed persists no
record, but the payload file written for the first image is NOT deleted —
it remains as an orphan, contradicting the claimed rollback. -/
theorem c2_counterexample :
    (createVehicle 0 initState reqBadImages).1.vehicles = [] ∧
    (createVehicle 0 initState reqBadImages).1.uploads
      = ["/uploads/0-0.png"] ∧
    ¬ (createVehicle 0 initState reqBadImages).1.uploads = [] :=
  ⟨by decide, by decide, by decide⟩

/-- C2 amended: when image ingestion fails partway through a create, no
record is persisted (the store is unchanged) and the request fails with
500, but the payload files already written for that request are NOT rolled
back: they remain in the uploads store. -/
theorem c2_amended (now : Nat) (st : ServerState) (req : CreateReq)
    (ws : List String)
    (hm : truthyStr req.marca = true) (ho : truthyStr req.modelo = true)
    (hres : resolveImages now (req.imagenes.getD []) 0 = .error ws) :
    (createVehicle now st req).1.vehicles = st.vehicles ∧
    (createVehicle now st req).1.uploads = st.uploads ++ ws ∧
    (createVehicle now st req).2.1 = 500 := by
  rw [createVehicle_err500 hm ho hres]
  exact ⟨rfl, rfl, rfl⟩

/-- C2 amended witness: the two-image request with a malformed second image
leaves the store unchanged and the first file orphaned. -/
theorem c2_amended_witness :
    (createVehicle 0 initState reqBadImages).1.vehicles
        = initState.vehicles ∧
    (createVehicle 0 initState reqBadImages).1.uploads
        = initState.uploads ++ ["/uploads/0-0.png"] ∧
    (createVehicle 0 initState reqBadImages).2.1 = 500 :=
  c2_amended 0 initState reqBadImages ["/uploads/0-0.png"]
    (by decide) (by decide) rfl

/-- C3 counterexample: create, create, delete the max id, create — the
fourth operation reassigns id 2, so the assigned-id sequence `[1, 2, 2]`
is not strictly increasing. -/
theorem c3_counterexample :
    assignedIds initState
        [.create 0 reqFord, .create 1 reqFord, .del (.num 2),
         .create 2 reqFord] = [1, 2, 2] ∧
    (assignedIds initState
        [.create 0 reqFord, .create 1 reqFord, .del (.num 2),
         .create 2 reqFord])[1]? = some 2 ∧
    (assignedIds initState
        [.create 0 reqFord, .create 1 reqFord, .del (.num 2),
         .create 2 reqFord])[2]? = some 2 :=
  ⟨by decide, by decide, by decide⟩

/-- C3 amended: a successful create is assigned `getNextId`, which is
strictly greater than every id currently in the store — but after the
record holding the maximum id is deleted, a previously assigned id can be
reused (ids are not monotonically increasing across the whole history). -/
theorem c3_amended (now : Nat) (st : ServerState) (req : CreateReq)
    (refs ws : List String)
    (hm : truthyStr req.marca = true) (ho : truthyStr req.modelo = true)
    (hres : resolveImages now (req.imagenes.getD []) 0 = .ok (refs, ws)) :
    respId (createVehicle now st req).2.2
      = some ((getNextId st.vehicles : Int)) ∧
    ∀ v ∈ st.vehicles, (v.id : Int) < ((getNextId st.vehicles : Nat) : Int) := by
  rw [createVehicle_ok hm ho hres]
  refine ⟨rfl, fun v hv => ?_⟩
  exact_mod_cast id_lt_getNextId hv

/-- C3 amended witness: the first create on the empty store is assigned
id 1. -/
theorem c3_amended_witness :
    respId (createVehicle 0 initState reqFord).2.2 = some 1 ∧
    ∀ v ∈ initState.vehicles, (v.id : Int) < 1 :=
  c3_amended 0 initState reqFord [] [] (by decide) (by decide) rfl

/-- C4: deleting an existing id (on a store with duplicate-free ids)
succeeds with `{success:true}`, removes exactly that record — every other
record stays in subsequent list results — and removes from the uploads
store exactly the files named by that vehicle's `/uploads/` references,
leaving all other files untouched; no hypothesis on which files actually
exist is needed, so deleting a missing payload file is a no-op, not an
error. -/
theorem c4_delete_frame (st : ServerState) (v : Vehicle)
    (hnd : (st.vehicles.map Vehicle.id).Nodup) (hv : v ∈ st.vehicles)
    (hvid : v.id ≠ 0) :
    (deleteVehicle st (.num (v.id : Int))).2
      = (200, .jobj [("success", .jbool true)]) ∧
    listVehicles (deleteVehicle st (.num (v.id : Int))).1
      = st.vehicles.filter (fun w => decide (w.id ≠ v.id)) ∧
    (∀ w ∈ st.vehicles, w.id ≠ v.id →
      w ∈ listVehicles (deleteVehicle st (.num (v.id : Int))).1) ∧
    (deleteVehicle st (.num (v.id : Int))).1.uploads
      = st.uploads.filter
          (fun f => !(v.imagenes.contains f && jsStartsWith f "/uploads/")) := by
  have hne : (v.id : Int) ≠ 0 := by exact_mod_cast hvid
  have hfilter : st.vehicles.filter
        (fun w => (w.id : Int) != (v.id : Int))
      = st.vehicles.filter (fun w => decide (w.id ≠ v.id)) := by
    refine List.filter_congr (fun w _ => ?_)
    by_cases hw : w.id = v.id
    · simp [hw]
    · have : (w.id : Int) ≠ (v.id : Int) := by exact_mod_cast hw
      simp [hw, this, bne_iff_ne]
  rw [deleteVehicle_num_def, if_neg hne, find?_by_id hnd hv]
  refine ⟨rfl, hfilter, fun w hw hwid => ?_, deleteImages_eq_filter _ _⟩
  rw [hfilter]
  exact List.mem_filter.mpr ⟨hw, by simpa using hwid⟩

/-- C4 witness: deleting vehicle 1 from a two-vehicle store succeeds,
leaves vehicle 2 listed, removes vehicle 1's present payload file, skips
its missing one, and keeps vehicle 2's payload file. -/
theorem c4_delete_frame_witness :
    ((stAB.vehicles.map Vehicle.id).Nodup ∧ vehA ∈ stAB.vehicles ∧
      vehA.id ≠ 0) ∧
    (deleteVehicle stAB (.num (vehA.id : Int))).2
      = (200, .jobj [("success", .jbool true)]) ∧
    listVehicles (deleteVehicle stAB (.num (vehA.id : Int))).1 = [vehB] ∧
    (deleteVehicle stAB (.num (vehA.id : Int))).1.uploads
      = ["/uploads/20-0.jpg"] := by
  have h := c4_delete_frame stAB vehA (by decide) (by decide) (by decide)
  refine ⟨⟨by decide, by decide, by decide⟩, h.1, ?_, ?_⟩
  · rw [h.2.1]; decide
  · rw [h.2.2.2]; decide

/-- C5: a create whose `marca` or `modelo` is absent or empty is rejected
with status 400 and the error body, and the whole server state — store and
uploads alike — is returned unchanged. -/
theorem c5_validation_rejects (now : Nat) (st : ServerState)
    (req : CreateReq)
    (h : truthyStr req.marca = false ∨ truthyStr req.modelo = false) :
    createVehicle now st req
      = (st, 400, .jobj [("error", .jstr "Faltan campos obligatorios")]) :=
  createVehicle_err400 h

/-- C5 witness: a request without `marca` is rejected and the store is
untouched. -/
theorem c5_validation_rejects_witness :
    truthyStr reqNoMarca.marca = false ∧
    createVehicle 7 stAB reqNoMarca
      = (stAB, 400, .jobj [("error", .jstr "Faltan campos obligatorios")]) :=
  ⟨by decide, c5_validation_rejects 7 stAB reqNoMarca (Or.inl (by decide))⟩

/-- C6 counterexample: an object image whose `src` is an external URL is
NOT stored verbatim — the create fails with 500 and nothing is stored,
because `img.src || img` is always handed to the data-URL decoder. -/
theorem c6_counterexample :
    (createVehicle 0 initState reqObjUrl).2.1 = 500 ∧
    (createVehicle 0 initState reqObjUrl).1.vehicles = [] :=
  ⟨by decide, by decide⟩

/-- C6 amended: (a) image resolution is applied elementwise preserving
order, and a plain string element that is not a data URL is stored
verbatim at its own position; but (b) for an object element the extracted
`src` is always passed to the data-URL decoder, so an object wrapping an
external URL makes the create fail with 500 (InvalidImageFormat), with the
state unchanged, instead of being stored verbatim. -/
theorem c6_amended :
    (∀ (now : Nat) (imgs : List ImgInput) (idx : Nat)
       (refs ws : List String),
       resolveImages now imgs idx = .ok (refs, ws) →
       ∀ (k : Nat) (s : String), imgs[k]? = some (.str s) →
         jsStartsWith s "data:" = false → refs[k]? = some s) ∧
    (∀ (now : Nat) (st : ServerState) (req : CreateReq) (s : String),
       truthyStr req.marca = true → truthyStr req.modelo = true →
       req.imagenes = some [.obj (some s)] → s ≠ "" →
       matchDataUrl s = none →
       createVehicle now st req
         = (st, 500,
            .jobj [("error", .jstr "Error interno al guardar el vehículo")])) := by
  constructor
  · intro now imgs idx refs ws h k s hk hsw
    exact resolveImages_ok_verbatim h k s hk hsw
  · intro now st req s hm ho himg hne hmt
    have hres : resolveImages now (req.imagenes.getD []) 0 = .error [] := by
      rw [himg]
      simp [resolveImages, resolveOne, srcOrSelf, if_neg hne,
        saveDataUrlToFile, hmt]
    rw [createVehicle_err500 hm ho hres]
    simp

/-- C6 amended witness: a plain external URL string is stored verbatim at
its position, while the object-wrapped external URL fails the create. -/
theorem c6_amended_witness :
    resolveImages 0 [ImgInput.str "https://example.com/a.jpg"] 0
        = .ok (["https://example.com/a.jpg"], []) ∧
    (["https://example.com/a.jpg"] : List String)[0]?
        = some "https://example.com/a.jpg" ∧
    createVehicle 0 initState reqObjUrl
      = (initState, 500,
         .jobj [("error", .jstr "Error interno al guardar el vehículo")]) := by
  refine ⟨rfl, ?_, ?_⟩
  · exact c6_amended.1 0 [ImgInput.str "https://example.com/a.jpg"] 0
      ["https://example.com/a.jpg"] [] rfl 0 "https://example.com/a.jpg"
      (by decide) (by decide)
  · exact c6_amended.2 0 initState reqObjUrl "https://example.com/a.jpg"
      (by decide) (by decide) rfl (by decide) (by decide)

/-- C7 counterexample: the server applies no image cap — a create payload
with six images yields a stored record with six image references. -/
theorem c7_counterexample :
    (createVehicle 0 initState reqSixImages).1.vehicles.map
        (fun v => v.imagenes.length) = [6] ∧
    ¬ (∀ v ∈ (createVehicle 0 initState reqSixImages).1.vehicles,
        v.imagenes.length ≤ 5) :=
  ⟨by decide, by decide⟩

/-- C7 amended: the 5-image cap is enforced client-side only —
`handleSelectedFiles` never grows the admin form's selection beyond 5 —
while the server persists exactly one image reference per payload element,
however many the request carries. -/
theorem c7_amended :
    (∀ (sel : List String) (files : List (String × String)),
       sel.length ≤ 5 → (handleSelectedFiles sel files).length ≤ 5) ∧
    (∀ (now : Nat) (st : ServerState) (req : CreateReq)
       (refs ws : List String),
       truthyStr req.marca = true → truthyStr req.modelo = true →
       resolveImages now (req.imagenes.getD []) 0 = .ok (refs, ws) →
       ∃ v, (createVehicle now st req).1.vehicles = st.vehicles ++ [v] ∧
         v.imagenes.length = (req.imagenes.getD []).length) := by
  constructor
  · intro sel files h
    exact handleSelectedFiles_le files sel h
  · intro now st req refs ws hm ho hres
    refine ⟨nuevoVehicle (getNextId st.vehicles) req refs, ?_, ?_⟩
    · rw [createVehicle_ok hm ho hres]
    · show refs.length = _
      exact resolveImages_ok_length hres

/-- C7 amended witness: six selected files leave at most five client-side,
while the six-image server payload stores six references. -/
theorem c7_amended_witness :
    (handleSelectedFiles [] sixFiles).length ≤ 5 ∧
    (∃ v, (createVehicle 0 initState reqSixImages).1.vehicles
        = initState.vehicles ++ [v] ∧
      v.imagenes.length = (reqSixImages.imagenes.getD []).length) :=
  ⟨c7_amended.1 [] sixFiles (by decide),
   c7_amended.2 0 initState reqSixImages
     ["u1", "u2", "u3", "u4", "u5", "u6"] [] (by decide) (by decide) rfl⟩

/-- C8: every store state reachable from the empty store by create and
delete operations is listed in full, in strictly ascending id order (the
GET handler returns the stored array as-is, and reachable stores are
sorted). -/
theorem c8_list_sorted (st : ServerState) (h : Reachable st) :
    listVehicles st = st.vehicles ∧
    List.Pairwise (fun a b => a.id < b.id) (listVehicles st) :=
  ⟨rfl, reachable_sorted h⟩

/-- C8 witness: a concrete reachable state (two creates, a delete, another
create) lists its vehicles in ascending id order. -/
theorem c8_list_sorted_witness :
    Reachable (runOps
      [.create 0 reqFord, .create 1 reqFord, .del (.num 1),
       .create 2 reqFord]) ∧
    List.Pairwise (fun a b => a.id < b.id)
      (listVehicles (runOps
        [.create 0 reqFord, .create 1 reqFord, .del (.num 1),
         .create 2 reqFord])) :=
  ⟨⟨_, rfl⟩,
   (c8_list_sorted _ ⟨_, rfl⟩).2⟩

/-- C9 counterexample: the scenario create responds 201 with the body
`{success:true, id:1}` only — it carries no `marca` and no `imagenes`
field, contradicting the claim that the full record is returned. -/
theorem c9_counterexample :
    (createVehicle 0 initState reqFord).2.1 = 201 ∧
    respId (createVehicle 0 initState reqFord).2.2 = some 1 ∧
    jlookup (createVehicle 0 initState reqFord).2.2 "marca" = none ∧
    jlookup (createVehicle 0 initState reqFord).2.2 "imagenes" = none :=
  ⟨rfl, rfl, rfl, rfl⟩

/-- C9 amended: a successful create persists the complete record (all
fields, including the assigned id) to the store, but responds 201 with
only `{success:true, id}` — the full record is not echoed back. -/
theorem c9_amended (now : Nat) (st : ServerState) (req : CreateReq)
    (refs ws : List String)
    (hm : truthyStr req.marca = true) (ho : truthyStr req.modelo = true)
    (hres : resolveImages now (req.imagenes.getD []) 0 = .ok (refs, ws)) :
    (createVehicle now st req).2.1 = 201 ∧
    (createVehicle now st req).2.2
      = .jobj [("success", .jbool true),
               ("id", .jnum (getNextId st.vehicles))] ∧
    (createVehicle now st req).1.vehicles
      = st.vehicles ++ [nuevoVehicle (getNextId st.vehicles) req refs] := by
  rw [createVehicle_ok hm ho hres]
  exact ⟨rfl, rfl, rfl⟩

/-- C9 amended witness: the scenario create persists the full Ford record
but responds with `{success:true, id:1}`. -/
theorem c9_amended_witness :
    (createVehicle 0 initState reqFord).2.2
      = .jobj [("success", .jbool true), ("id", .jnum 1)] ∧
    (createVehicle 0 initState reqFord).1.vehicles
      = [nuevoVehicle 1 reqFord []] := by
  have h := c9_amended 0 initState reqFord [] [] (by decide) (by decide) rfl
  exact ⟨h.2.1, h.2.2⟩

/-- C10: on the success path of a create, a numeric field whose parse
result is the number 0 is stored as null (`none`), because the `|| null`
coercion replaces every falsy parse result — both `NaN` and `0` — with
null. -/
theorem c10_zero_becomes_null (now : Nat) (st : ServerState)
    (req : CreateReq) (refs ws : List String)
    (hm : truthyStr req.marca = true) (ho : truthyStr req.modelo = true)
    (hres : resolveImages now (req.imagenes.getD []) 0 = .ok (refs, ws)) :
    (createVehicle now st req).1.vehicles
      = st.vehicles ++ [nuevoVehicle (getNextId st.vehicles) req refs] ∧
    (req.anio = .num 0 →
      (nuevoVehicle (getNextId st.vehicles) req refs).anio = none) ∧
    (req.precio = .num 0 →
      (nuevoVehicle (getNextId st.vehicles) req refs).precio = none) ∧
    (req.km = .num 0 →
      (nuevoVehicle (getNextId st.vehicles) req refs).km = none) ∧
    jsOrNull (.num 0) = none ∧ jsOrNull .nan = none := by
  refine ⟨by rw [createVehicle_ok hm ho hres], ?_, ?_, ?_, rfl, rfl⟩
  · intro h0
    simp [nuevoVehicle, h0, jsOrNull]
  · intro h0
    simp [nuevoVehicle, h0, jsOrNull]
  · intro h0
    simp [nuevoVehicle, h0, jsOrNull]

/-- C10 witness: a zero-kilometre create stores `km` as null. -/
theorem c10_zero_becomes_null_witness :
    reqZeroKm.km = .num 0 ∧
    (createVehicle 0 initState reqZeroKm).1.vehicles
      = [nuevoVehicle 1 reqZeroKm []] ∧
    (nuevoVehicle 1 reqZeroKm []).km = none := by
  have h := c10_zero_becomes_null 0 initState reqZeroKm [] []
    (by decide) (by decide) rfl
  exact ⟨rfl, h.1, h.2.2.2.1 rfl⟩

end AutosCampana
